import Mathlib

set_option maxRecDepth 40000

/-!
A verification development for the anomaly-scoring engine (`agents/json_agent.py`)
and the action-dispatch orchestrator (`core/action_router.py`) of the FlowBit
repository.  The Python code is shallowly embedded: dictionaries parsed from
JSON become association lists of `JValue`s, Python floats are idealised as
exact rationals (`ℚ`), and the only behaviours modelled abstractly are the two
external library calls whose internals the code never depends on:
`numpy`'s square root inside `np.std` (parameter `sq : ℚ → ℚ`, applied to the
exactly-computed population variance) and `datetime.fromisoformat`
(parameter `parse : String → Option ℚ`, returning an epoch-seconds value, with
`none` modelling the `ValueError` raised on a malformed string).  Exceptions
that escape a function are modelled with `Except PyErr`.

Rational arithmetic is written with local wrappers (`qAdd`, `qMul`, ...) built
on `mkRat`/`Rat.divInt` so that every definition evaluates by kernel
reduction; bridge lemmas identify the wrappers with the standard field
operations, which the theorems are stated with.
-/

/-- A JSON value as the agent sees it after `json.loads` (or a caller-supplied
dict).  Composite values (nested objects and arrays) are opaque to every code
path modelled here — the agent only ever tests them with `isinstance` checks
that fail — so they are collapsed into a single constructor carrying an
identity tag. -/
inductive JValue where
  | jnull
  | jbool (b : Bool)
  | jint (n : Int)
  | jfloat (q : ℚ)
  | jstr (s : String)
  | jcomposite (tag : Nat)
  deriving DecidableEq

/-- A top-level JSON object: keys in insertion order, as Python dicts iterate. -/
abbrev Record := List (String × JValue)

/-- `field in data` followed by `data[field]`: first binding for the key. -/
def lookupRec (data : Record) (k : String) : Option JValue :=
  (data.find? (fun kv => kv.1 == k)).map (fun kv => kv.2)

/-- `isinstance(v, (int, float))` followed by `float(v)`.  Python's `bool` is a
subclass of `int`, so `True`/`False` pass the check and convert to `1.0`/`0.0`. -/
def toNum : JValue → Option ℚ
  | .jint n => some (mkRat n 1)
  | .jfloat q => some q
  | .jbool b => some (if b then 1 else 0)
  | _ => none

/-- `value is None or value == ""` (the null/empty test in the quality check). -/
def isNullish : JValue → Bool
  | .jnull => true
  | .jstr s => s == ""
  | _ => false

/-! ### Rational arithmetic wrappers

Batteries marks `Rat.add`, `Rat.mul`, `Rat.sub` and `Rat.inv` `@[irreducible]`,
which stops kernel evaluation; these wrappers compute the same values through
`mkRat`/`Rat.divInt`, which do reduce.  Bridge lemmas below identify them with
the standard operations. -/

def qAdd (a b : ℚ) : ℚ := mkRat (a.num * b.den + b.num * a.den) (a.den * b.den)

def qSub (a b : ℚ) : ℚ := mkRat (a.num * b.den - b.num * a.den) (a.den * b.den)

def qMul (a b : ℚ) : ℚ := mkRat (a.num * b.num) (a.den * b.den)

def qDiv (a b : ℚ) : ℚ := Rat.divInt (a.num * b.den) (a.den * b.num)

def qAbs (a : ℚ) : ℚ := if a.num < 0 then mkRat (-a.num) a.den else a

/-- Python `min(a, b)`. -/
def qMin (a b : ℚ) : ℚ := if a ≤ b then a else b

/-- Python `max(a, b)`. -/
def qMax (a b : ℚ) : ℚ := if a ≤ b then b else a

def qSum (l : List ℚ) : ℚ := l.foldl qAdd 0

theorem qAdd_eq (a b : ℚ) : qAdd a b = a + b := by
  rw [qAdd, Rat.mkRat_eq_div]
  push_cast
  conv_rhs => rw [← Rat.num_div_den a, ← Rat.num_div_den b]
  rw [div_add_div _ _ (by exact_mod_cast a.den_nz) (by exact_mod_cast b.den_nz)]
  ring_nf

theorem qSub_eq (a b : ℚ) : qSub a b = a - b := by
  rw [qSub, Rat.mkRat_eq_div]
  push_cast
  conv_rhs => rw [← Rat.num_div_den a, ← Rat.num_div_den b]
  rw [div_sub_div _ _ (by exact_mod_cast a.den_nz) (by exact_mod_cast b.den_nz)]
  ring_nf

theorem qMul_eq (a b : ℚ) : qMul a b = a * b := by
  rw [qMul, Rat.mkRat_eq_div]
  push_cast
  conv_rhs => rw [← Rat.num_div_den a, ← Rat.num_div_den b]
  rw [div_mul_div_comm]

theorem qDiv_eq (a b : ℚ) : qDiv a b = a / b := by
  rw [qDiv]
  exact (Rat.div_def' a b).symm

theorem qAbs_eq (a : ℚ) : qAbs a = |a| := by
  rw [qAbs]
  split
  · rename_i hneg
    have ha : a < 0 := by
      rw [← not_le, ← Rat.num_nonneg]
      omega
    rw [abs_of_neg ha, Rat.mkRat_eq_div]
    push_cast
    rw [neg_div, Rat.num_div_den]
  · rename_i hpos
    exact (abs_of_nonneg (Rat.num_nonneg.mp (by omega))).symm

theorem qMin_eq (a b : ℚ) : qMin a b = min a b := (min_def a b).symm

theorem qMax_eq (a b : ℚ) : qMax a b = max a b := (max_def a b).symm

/-! ### String helpers

`String.toLower`, `String.replace` and substring search from the library are
defined by well-founded recursion and do not kernel-reduce, so the scans the
agent performs are implemented structurally over `List Char`. -/

def lowChars : List Char → List Char
  | [] => []
  | c :: rest => c.toLower :: lowChars rest

/-- `pat` occurs as a contiguous substring of `l` (Python's `pat in l`). -/
def containsSub (pat : List Char) : List Char → Bool
  | [] => List.isEmpty pat
  | c :: rest => (List.isPrefixOf pat (c :: rest) : Bool) || containsSub pat rest

/-- Python `s.replace('Z', '+00:00')` as performed on timestamp strings;
replacing a single-character pattern substitutes every occurrence. -/
def replaceZChars : List Char → List Char
  | [] => []
  | c :: rest => if c == 'Z' then ("+00:00".data ++ replaceZChars rest)
      else c :: replaceZChars rest

def replaceZ (s : String) : String := String.mk (replaceZChars s.data)

/-- An exception escaping an embedded Python function.  Only `AttributeError`
can escape the modelled paths: it is raised by `x.replace(...)` when the
timestamp value is not a string, and it is absent from the
`except (ValueError, TypeError)` clauses of `json_agent.py`. -/
inductive PyErr where
  | attributeError
  deriving DecidableEq

instance {ε α : Type} [DecidableEq ε] [DecidableEq α] : DecidableEq (Except ε α) := fun a b =>
  match a, b with
  | .ok x, .ok y => if h : x = y then isTrue (by rw [h]) else isFalse (by simp [h])
  | .error x, .error y => if h : x = y then isTrue (by rw [h]) else isFalse (by simp [h])
  | .ok _, .error _ => isFalse (by simp)
  | .error _, .ok _ => isFalse (by simp)

/-- `data["timestamp"].replace('Z', '+00:00')`: dynamic dispatch of `.replace`
on the runtime value.  Non-string values have no suitable `replace` attribute
and raise `AttributeError`. -/
def pyReplaceZ : JValue → Except PyErr String
  | .jstr s => .ok (replaceZ s)
  | _ => .error .attributeError

/-! ### Bounded history store (`self.historical_data`, `_update_historical_data`)

`historical_data` is a `defaultdict(list)`; the slices relevant to one
`schema_type` are the lists at keys `f"{schema_type}_amounts"` and
`f"{schema_type}_timestamps"`.  Timestamps are idealised as epoch seconds. -/

structure Hist where
  amounts : List ℚ
  timestamps : List ℚ
  deriving DecidableEq

/-- `lst.append(v)` followed by `if len(lst) > cap: lst = lst[-cap:]` —
the trimming step `_update_historical_data` runs after every append. -/
def pushCap (cap : Nat) (l : List ℚ) (v : ℚ) : List ℚ :=
  let l2 := l ++ [v]
  if cap < l2.length then l2.drop (l2.length - cap) else l2

/-- One amount append: capacity 1000 (`# Keep only last 1000 entries`). -/
def pushAmount (l : List ℚ) (v : ℚ) : List ℚ := pushCap 1000 l v

/-- One timestamp append: capacity 100 (`# Keep only last 100 timestamps`). -/
def pushTimestamp (l : List ℚ) (v : ℚ) : List ℚ := pushCap 100 l v

/-- The amount-like fields scanned by `_check_amount_anomaly` and
`_update_historical_data`, in source order. -/
def amountFields : List String := ["amount", "total", "value", "price"]

/-- The numeric values of the record's amount-like fields, in field order:
exactly the values the `for field in amount_fields` loop of
`_update_historical_data` appends. -/
def amountValues (data : Record) : List ℚ :=
  amountFields.filterMap (fun f => (lookupRec data f).bind toNum)

/-- `_update_historical_data(data, schema_type)`.  Amount fields are appended
(and trimmed) one by one; then, if a `timestamp` field is present, it is
parsed and appended, a `ValueError`/`TypeError` from parsing being swallowed
by the `except ... pass`.  The `AttributeError` from `.replace` on a
non-string value is not caught and escapes. -/
def update_historical_data (parse : String → Option ℚ) (data : Record) (h : Hist) :
    Except PyErr Hist :=
  let amounts2 := List.foldl pushAmount h.amounts (amountValues data)
  match lookupRec data "timestamp" with
  | none => .ok ⟨amounts2, h.timestamps⟩
  | some v =>
    match pyReplaceZ v with
    | .error e => .error e
    | .ok s =>
      match parse s with
      | none => .ok ⟨amounts2, h.timestamps⟩
      | some t => .ok ⟨amounts2, pushTimestamp h.timestamps t⟩

/-! ### Anomaly sub-detectors (`_check_*` in `json_agent.py`)

Each sub-detector either fires, returning `{"anomalies": [...], "score": s}`,
or returns `None`. -/

/-- A fired sub-detector result: `{"anomalies": [...], "score": ...}`. -/
structure DetectorHit where
  anomalies : List String
  score : ℚ
  deriving DecidableEq

def hitScore : Option DetectorHit → ℚ
  | none => 0
  | some h => h.score

def hitTags : Option DetectorHit → List String
  | none => []
  | some h => h.anomalies

/-- `self.anomaly_patterns["unusual_amounts"]["min_samples"]`. -/
def min_samples : Nat := 10

/-- `self.anomaly_patterns["unusual_amounts"]["threshold_multiplier"]` (3.0). -/
def threshold_multiplier : ℚ := 3

/-- `np.mean` over the window, idealised to exact rational arithmetic. -/
def listMean (l : List ℚ) : ℚ := qDiv (qSum l) (mkRat l.length 1)

/-- The population variance, so that `np.std(l) = sqrt (popVariance l)`;
the square root itself is the abstracted parameter `sq`. -/
def popVariance (l : List ℚ) : ℚ :=
  qDiv (qSum (l.map (fun x => qMul (qSub x (listMean l)) (qSub x (listMean l)))))
    (mkRat l.length 1)

/-- The body of `_check_amount_anomaly`'s `for field in amount_fields` loop.
For each field that is present with a numeric value: when the history has at
least `min_samples` entries and `|amount - mean| > threshold * std` the
detector fires with tag `unusual_<field>_amount` and score
`min(|amount - mean| / (threshold * std), 1.0)`; otherwise the loop moves on.
When `threshold * std == 0` in the fired branch the numerator is positive, so
the IEEE division yields `+inf` and `min(+inf, 1.0) = 1.0`; the model returns
`1` directly in that case. -/
def checkAmountGo (sq : ℚ → ℚ) (data : Record) (hist : List ℚ) :
    List String → Option DetectorHit
  | [] => none
  | f :: rest =>
    match (lookupRec data f).bind toNum with
    | none => checkAmountGo sq data hist rest
    | some amount =>
      if min_samples ≤ hist.length then
        let mean := listMean hist
        let std := sq (popVariance hist)
        let bound := qMul threshold_multiplier std
        if bound < qAbs (qSub amount mean) then
          some ⟨["unusual_" ++ f ++ "_amount"],
            if bound = 0 then 1 else qMin (qDiv (qAbs (qSub amount mean)) bound) 1⟩
        else checkAmountGo sq data hist rest
      else checkAmountGo sq data hist rest

/-- `_check_amount_anomaly(data, schema_type)`; `hist` is
`self.historical_data.get(f"{schema_type}_amounts", [])`. -/
def check_amount_anomaly (sq : ℚ → ℚ) (data : Record) (h : Hist) :
    Option DetectorHit :=
  checkAmountGo sq data h.amounts amountFields

/-- `self.anomaly_patterns["suspicious_patterns"]["rapid_succession"]`. -/
def rapid_succession : Nat := 5

/-- `timedelta(minutes=self.anomaly_patterns["suspicious_patterns"]["time_window_minutes"])`
in seconds. -/
def time_window_seconds : ℚ := 300

/-- `_check_pattern_anomaly(data, schema_type)`; `h.timestamps` is
`self.historical_data.get(f"{schema_type}_timestamps", [])`.  The
`try` block catches only `ValueError`/`TypeError` (a malformed timestamp
string), yielding the fixed tag and score `0.5`; the `AttributeError` raised
by `.replace` on a non-string timestamp value is not caught and escapes. -/
def check_pattern_anomaly (parse : String → Option ℚ) (data : Record) (h : Hist) :
    Except PyErr (Option DetectorHit) :=
  match lookupRec data "timestamp" with
  | none => .ok none
  | some v =>
    match pyReplaceZ v with
    | .error e => .error e
    | .ok s =>
      match parse s with
      | none => .ok (some ⟨["invalid_timestamp_format"], mkRat 1 2⟩)
      | some current =>
        let recent_count :=
          (h.timestamps.filter (fun ts => decide (qSub current ts < time_window_seconds))).length
        if rapid_succession ≤ recent_count then
          .ok (some ⟨["rapid_succession_events"],
            qMin (qDiv (mkRat recent_count 1) 10) 1⟩)
        else .ok none

/-- `self.anomaly_patterns["data_quality"]["null_percentage_threshold"]` (0.3). -/
def null_percentage_threshold : ℚ := mkRat 3 10

def sql_patterns : List String :=
  ["select ", "drop ", "insert ", "delete ", "update ", "union "]

def script_patterns : List String :=
  ["<script", "javascript:", "eval(", "alert("]

def matchesAnyPattern (s : String) (pats : List String) : Bool :=
  pats.any (fun p => containsSub p.data (lowChars s.data))

/-- The `for key, value in data.items()` loop of `_check_data_quality`: for
each string-valued field, an SQL-injection match appends
`potential_sql_injection` and a script-injection match appends
`potential_script_injection` (tags repeat per matching field). -/
def injectionTags : List (String × JValue) → List String
  | [] => []
  | kv :: rest =>
    match kv.2 with
    | .jstr s =>
      (if matchesAnyPattern s sql_patterns then ["potential_sql_injection"] else [])
        ++ (if matchesAnyPattern s script_patterns then ["potential_script_injection"] else [])
        ++ injectionTags rest
    | _ => injectionTags rest

/-- `_check_data_quality(data)`: the null-percentage check (fires when the
share of `None`/`""` values strictly exceeds 0.3, contributing the share
itself to the running max) followed by the injection scans (each match
contributing 0.9). -/
def check_data_quality (data : Record) : Option DetectorHit :=
  let total := data.length
  let nulls := (data.filter (fun kv => isNullish kv.2)).length
  let null_percentage := qDiv (mkRat nulls 1) (mkRat total 1)
  let nullFires := 0 < total ∧ null_percentage_threshold < null_percentage
  let inj := injectionTags data
  let tags := (if nullFires then ["excessive_null_values"] else []) ++ inj
  let score :=
    let s1 := if nullFires then qMax 0 null_percentage else 0
    if inj.isEmpty then s1 else qMax s1 (mkRat 9 10)
  if tags.isEmpty then none else some ⟨tags, score⟩

/-- The Python runtime types named in `_check_type_anomalies`'s
`expected_types` registry. -/
inductive PyType where
  | pyStr
  | pyIntOrFloat
  | pyInt
  | pyBool
  deriving DecidableEq

/-- `expected_types` in `_check_type_anomalies`, in source order. -/
def expected_types : List (String × PyType) :=
  [("id", .pyStr), ("user_id", .pyStr), ("amount", .pyIntOrFloat),
   ("timestamp", .pyStr), ("count", .pyInt), ("active", .pyBool),
   ("email", .pyStr)]

/-- `isinstance(v, expected_type)`; Python's `bool` is a subclass of `int`,
so booleans satisfy both `int` and `(int, float)`. -/
def isinstanceOf : JValue → PyType → Bool
  | .jstr _, .pyStr => true
  | .jint _, .pyIntOrFloat => true
  | .jfloat _, .pyIntOrFloat => true
  | .jbool _, .pyIntOrFloat => true
  | .jint _, .pyInt => true
  | .jbool _, .pyInt => true
  | .jbool _, .pyBool => true
  | _, _ => false

/-- `_check_type_anomalies(data, schema_type)`: one tag per present field
whose runtime type mismatches the registry; score `0.2` per mismatch
(uncapped here, capped globally in `_detect_anomalies`). -/
def check_type_anomalies (data : Record) : Option DetectorHit :=
  let tags := expected_types.filterMap (fun ft =>
    match lookupRec data ft.1 with
    | none => none
    | some v => if isinstanceOf v ft.2 then none
        else some ("unexpected_type_" ++ ft.1))
  if tags.isEmpty then none else some ⟨tags, qMul (mkRat tags.length 1) (mkRat 1 5)⟩

/-! ### The combined scorer (`_detect_anomalies`) -/

/-- `self.anomaly_threshold` (0.8). -/
def anomaly_threshold : ℚ := mkRat 4 5

/-- The dict `_detect_anomalies` returns. -/
structure AnomalyReport where
  is_normal : Bool
  anomalies : List String
  anomaly_score : ℚ
  deriving DecidableEq

/-- One `if <hit>: anomaly_score = max(anomaly_score, hit["score"])` step of
`_detect_anomalies`: a non-fired detector leaves the running score unchanged. -/
def stepMax (s : ℚ) (o : Option DetectorHit) : ℚ :=
  match o with
  | none => s
  | some x => qMax s x.score

/-- `_detect_anomalies(data, schema_type)`: runs the four sub-detectors in
source order (amount, pattern, quality, type), extends the tag list with each
fired detector's tags, folds the running score with `max` (starting from 0.0,
never summing), and returns `is_normal = score < threshold` with the reported
score capped by `min(score, 1.0)` (`is_normal` is computed from the uncapped
running score, as in the source).  An exception escaping a sub-detector
(`AttributeError` from the pattern check) propagates. -/
def detect_anomalies (sq : ℚ → ℚ) (parse : String → Option ℚ) (data : Record)
    (h : Hist) : Except PyErr AnomalyReport :=
  let amountHit := check_amount_anomaly sq data h
  match check_pattern_anomaly parse data h with
  | .error e => .error e
  | .ok patternHit =>
    let qualityHit := check_data_quality data
    let typeHit := check_type_anomalies data
    let s4 := stepMax (stepMax (stepMax (stepMax 0 amountHit) patternHit) qualityHit) typeHit
    .ok { is_normal := decide (s4 < anomaly_threshold)
          anomalies := hitTags amountHit ++ hitTags patternHit
            ++ hitTags qualityHit ++ hitTags typeHit
          anomaly_score := qMin s4 1 }

/-! ### Schema validation (`_validate_schema`) and the combined result

`jsonschema.validate` is an external library call; its verdict for a given
schema and record is abstracted as the parameter `lib`, returning whether
validation passed, raised `jsonschema.ValidationError` with a given message,
or raised some other exception.  The surrounding repository logic — the
registry lookup, the pass-through for unknown schema types, and the fixed
scores attached to each failure mode — is embedded concretely. -/

inductive JsOutcome where
  | valid
  | invalid (msg : String)
  | raisedOther (msg : String)

/-- The keys of `self.schema_registry`. -/
def schemaRegistryKeys : List String := ["webhook", "invoice", "transaction", "user_event"]

/-- The dataclass `JSONValidationResult` (`models/schemas.py`). -/
structure JSONValidationResult where
  is_valid : Bool
  schema_errors : List String
  anomalies : List String
  anomaly_score : ℚ
  missing_fields : List String
  type_errors : List String
  deriving DecidableEq

/-- The apostrophe character, written without a quote-mark literal. -/
def apostrophe : String := String.mk [Char.ofNat 39]

/-- `str(e).split("'")[1] if "'" in str(e) else "unknown"` — the
missing-field name extraction on a `required`-style validation error. -/
def parseMissingField (e : String) : String :=
  if containsSub apostrophe.data e.data then (e.splitOn apostrophe).getD 1 "unknown"
  else "unknown"

/-- `_validate_schema(data, schema_type)`: unknown schema types pass with
score 0; a `ValidationError` yields `is_valid = False` with fixed score 0.7
and tag `schema_validation_failure`, plus the string-hacked missing-field /
type-error lists; any other exception yields fixed score 0.8 and tag
`validation_error`. -/
def validate_schema (lib : String → Record → JsOutcome) (data : Record)
    (schema_type : String) : JSONValidationResult :=
  if schemaRegistryKeys.contains schema_type then
    match lib schema_type data with
    | .valid => ⟨true, [], [], 0, [], []⟩
    | .invalid e =>
      ⟨false, [e], ["schema_validation_failure"], mkRat 7 10,
        if containsSub "required".data e.data then [parseMissingField e] else [],
        if containsSub "type".data e.data then [e] else []⟩
    | .raisedOther e =>
      ⟨false, ["Validation error: " ++ e], ["validation_error"], mkRat 4 5, [], []⟩
  else ⟨true, [], [], 0, [], []⟩

/-- The combination step of `process_json` (lines 112–119): overall validity
is schema validity AND anomaly normality; the anomaly list and score come
from the anomaly report alone (the schema result's own score is discarded). -/
def combineResult (v : JSONValidationResult) (a : AnomalyReport) : JSONValidationResult :=
  { is_valid := v.is_valid && a.is_normal
    schema_errors := v.schema_errors
    anomalies := a.anomalies
    anomaly_score := a.anomaly_score
    missing_fields := v.missing_fields
    type_errors := v.type_errors }

/-! ### Action policy (`_generate_actions`) -/

/-- `ActionType` (`models/schemas.py`); exactly the six members, all of which
`ActionRouter.__init__` registers a handler for. -/
inductive ActionType where
  | escalate
  | log_and_close
  | flag_anomaly
  | compliance_alert
  | risk_alert
  | create_ticket
  deriving DecidableEq

/-- The `.value` string of each `ActionType` member. -/
def actionTypeValue : ActionType → String
  | .escalate => "escalate"
  | .log_and_close => "log_and_close"
  | .flag_anomaly => "flag_anomaly"
  | .compliance_alert => "compliance_alert"
  | .risk_alert => "risk_alert"
  | .create_ticket => "create_ticket"

/-- `UrgencyLevel` (`models/schemas.py`). -/
inductive UrgencyLevel where
  | low
  | medium
  | high
  | critical
  deriving DecidableEq

/-- The payload dicts built by `json_agent.py`.  Fields derived from
wall-clock time, `hash()` or `str()` rendering (`data_preview`,
`timestamp`, correlation ids) are presentation-only and carried here as the
underlying structured values. -/
inductive APayload where
  | anomalyPayload (anomaly_type schema_type : String) (anomaly_score : ℚ)
      (schema_errors anomalies missing_fields type_errors : List String)
      (data_preview : Record)
  | riskPayload (risk_type : String) (risk_score : ℚ)
      (risk_indicators : List String) (affected_entity : JValue)
      (schema_type : String)
  | emptyPayload
  deriving DecidableEq

/-- `ActionRequest` (`models/schemas.py`); the `correlation_id`, built from
`hash()` and the wall clock, is presentation-only and omitted. -/
structure ActionRequest where
  action_type : ActionType
  payload : APayload
  priority : UrgencyLevel
  source_agent : String
  deriving DecidableEq

/-- The literal `high_risk_anomalies` list of `_generate_actions`. -/
def high_risk_anomalies : List String :=
  ["potential_sql_injection", "potential_script_injection",
   "rapid_succession_events", "unusual_amount"]

/-- The tags `_check_amount_anomaly` can emit: `unusual_<field>_amount` for
each configured amount field. -/
def unusualAmountTags : List String :=
  amountFields.map (fun f => "unusual_" ++ f ++ "_amount")

/-- `_generate_actions(result, data, schema_type)`: a `FLAG_ANOMALY` request
when the result is invalid or its score strictly exceeds the threshold
(priority `HIGH` when score > 0.8, else `MEDIUM`), then a `CRITICAL`
`RISK_ALERT` request when any member of the literal `high_risk_anomalies`
list occurs in the result's anomaly list. -/
def generate_actions (result : JSONValidationResult) (data : Record)
    (schema_type : String) : List ActionRequest :=
  let base : List ActionRequest :=
    if result.is_valid = false ∨ anomaly_threshold < result.anomaly_score then
      [{ action_type := .flag_anomaly
         payload := .anomalyPayload "json_validation_anomaly" schema_type
           result.anomaly_score result.schema_errors result.anomalies
           result.missing_fields result.type_errors data
         priority := if anomaly_threshold < result.anomaly_score then .high else .medium
         source_agent := "json_agent" }]
    else []
  if high_risk_anomalies.any (fun t => result.anomalies.contains t) then
    base ++ [{ action_type := .risk_alert
               payload := .riskPayload "data_security" result.anomaly_score
                 result.anomalies ((lookupRec data "user_id").getD (.jstr "unknown"))
                 schema_type
               priority := .critical
               source_agent := "json_agent" }]
  else base

/-! ### The processing pipeline (`process_json`, dict path)

`process_json` on an already-parsed record: schema validation, anomaly
detection (whose `AttributeError` propagates to the caller via the outer
`except ... raise`), result combination, action generation, then the
unconditional history update.  Counter increments and the `AgentDecision`
audit record are observability side effects with no bearing on the returned
value or the history state and are not modelled. -/

structure ProcessOut where
  result : JSONValidationResult
  actions : List ActionRequest
  hist : Hist
  deriving DecidableEq

def process_json (sq : ℚ → ℚ) (parse : String → Option ℚ)
    (lib : String → Record → JsOutcome) (data : Record) (schema_type : String)
    (h : Hist) : Except PyErr ProcessOut :=
  let v := validate_schema lib data schema_type
  match detect_anomalies sq parse data h with
  | .error e => .error e
  | .ok a =>
    let combined := combineResult v a
    let actions := generate_actions combined data schema_type
    match update_historical_data parse data h with
    | .error e => .error e
    | .ok h2 => .ok ⟨combined, actions, h2⟩

/-! ### Action dispatch (`core/action_router.py`)

A handler is an async callable; its behaviour on the `i`-th attempt (0-based)
is modelled as either returning a response after consuming `dur` seconds of
wall-clock time or raising an exception (message `err`) after `dur` seconds.
The response dict type is opaque to the router and is a type parameter.
Wall-clock time is modelled as the exact sum of the handler durations and the
`asyncio.sleep` backoff waits; `uuid` generation and counter increments are
observability side effects and are not modelled. -/

inductive HandlerAttempt (ρ : Type) where
  | ok (resp : ρ) (dur : ℚ)
  | raises (err : String) (dur : ℚ)
  deriving DecidableEq

/-- The retry configuration set in `ActionRouter.__init__`:
`self.retry_attempts` and `self.retry_delay` (seconds). -/
structure RouterConfig where
  retry_attempts : Nat
  retry_delay : ℚ
  deriving DecidableEq

def defaultRouterConfig : RouterConfig := ⟨3, 1⟩

/-- The outcome of `_execute_with_retry`: the handler's response or the
re-raised last exception, together with the wall-clock seconds consumed
(attempt durations plus backoff sleeps) and the number of attempts made. -/
structure RetryOut (ρ : Type) where
  outcome : Except String ρ
  elapsed : ℚ
  attemptsMade : Nat
  deriving DecidableEq

/-- The `for attempt in range(self.retry_attempts)` loop of
`_execute_with_retry`: return the handler's value on success; on an
exception, remember it and — unless this was the final attempt — sleep
`retry_delay * (attempt + 1)` (linear backoff) before the next attempt.
After the loop, `raise last_exception` (when `retry_attempts = 0` the loop
never runs and Python would raise `None`; the model returns the empty
message in that unreachable corner). -/
def retryGo {ρ : Type} (cfg : RouterConfig) (hnd : Nat → HandlerAttempt ρ)
    (attempt : Nat) (remaining : Nat) (elapsed : ℚ) (lastErr : Option String) :
    RetryOut ρ :=
  match remaining with
  | 0 => ⟨.error (lastErr.getD ""), elapsed, attempt⟩
  | r + 1 =>
    match hnd attempt with
    | .ok resp dur => ⟨.ok resp, qAdd elapsed dur, attempt + 1⟩
    | .raises e dur =>
      if attempt + 1 < cfg.retry_attempts then
        retryGo cfg hnd (attempt + 1) r
          (qAdd (qAdd elapsed dur) (qMul cfg.retry_delay (mkRat (attempt + 1) 1)))
          (some e)
      else
        retryGo cfg hnd (attempt + 1) r (qAdd elapsed dur) (some e)

/-- `_execute_with_retry(handler, action_request)`. -/
def execute_with_retry {ρ : Type} (cfg : RouterConfig)
    (hnd : Nat → HandlerAttempt ρ) : RetryOut ρ :=
  retryGo cfg hnd 0 cfg.retry_attempts 0 none

/-- `ActionResult` (`models/schemas.py`); `action_id` (a fresh uuid) and the
creation timestamp are presentation-only and omitted. -/
structure ActionResult (ρ : Type) where
  action_type : ActionType
  status : String
  response_data : Option ρ
  error_message : Option String
  execution_time_ms : ℚ
  deriving DecidableEq

/-- `str(ValueError(f"No handler found for action type: {t}"))`. -/
def noHandlerMsg (t : ActionType) : String :=
  "No handler found for action type: " ++ actionTypeValue t

/-- What `route_action` produces: the single `ActionResult` handed back to
the caller, plus the model's execution trace (attempts made and wall-clock
seconds consumed), used to state that no retry or backoff occurred. -/
structure RouteOut (ρ : Type) where
  result : ActionResult ρ
  attemptsMade : Nat
  elapsed : ℚ
  deriving DecidableEq

/-- `route_action(action_request)`: look up the handler in
`self.action_handlers` (passed here as `registry`, a lookup that the
constructor populates for all six action types but which the code reads
dynamically); a missing handler raises `ValueError`, which the enclosing
`try` converts — like any exception from the retry loop — into a single
`"failed"` `ActionResult`; a successful retry outcome becomes a single
`"success"` result carrying the handler's response.  `execution_time_ms` is
the wall-clock span from entry to result construction, times 1000. -/
def route_action {ρ : Type} (cfg : RouterConfig)
    (registry : ActionType → Option (Nat → HandlerAttempt ρ))
    (req : ActionRequest) : RouteOut ρ :=
  match registry req.action_type with
  | none =>
    ⟨{ action_type := req.action_type
       status := "failed"
       response_data := none
       error_message := some (noHandlerMsg req.action_type)
       execution_time_ms := 0 }, 0, 0⟩
  | some hnd =>
    let r := execute_with_retry cfg hnd
    match r.outcome with
    | .ok resp =>
      ⟨{ action_type := req.action_type
         status := "success"
         response_data := some resp
         error_message := none
         execution_time_ms := qMul r.elapsed 1000 }, r.attemptsMade, r.elapsed⟩
    | .error e =>
      ⟨{ action_type := req.action_type
         status := "failed"
         response_data := none
         error_message := some e
         execution_time_ms := qMul r.elapsed 1000 }, r.attemptsMade, r.elapsed⟩

/-! ### Helper lemmas -/

theorem drop_append_left {α : Type} (xs ys : List α) (n : Nat) (h : n ≤ xs.length) :
    xs.drop n ++ ys = (xs ++ ys).drop n := by
  rw [List.drop_append_eq_append_drop, Nat.sub_eq_zero_of_le h, List.drop_zero]

theorem pushCap_eq (cap : Nat) (l : List ℚ) (v : ℚ) (h : l.length ≤ cap) :
    pushCap cap l v = (l ++ [v]).drop ((l.length + 1) - cap) := by
  rw [pushCap]
  simp only [List.length_append, List.length_singleton]
  split
  · rfl
  · rename_i hc
    rw [Nat.sub_eq_zero_of_le (by omega), List.drop_zero]

theorem pushCap_length (cap : Nat) (l : List ℚ) (v : ℚ) (h : l.length ≤ cap) :
    (pushCap cap l v).length = min (l.length + 1) cap := by
  rw [pushCap_eq cap l v h, List.length_drop]
  simp only [List.length_append, List.length_singleton]
  omega

theorem foldl_pushCap (cap : Nat) (vs : List ℚ) :
    ∀ l : List ℚ, l.length ≤ cap →
      List.foldl (pushCap cap) l vs = (l ++ vs).drop ((l.length + vs.length) - cap) := by
  induction vs with
  | nil =>
    intro l h
    rw [List.foldl_nil, List.append_nil, List.length_nil, Nat.add_zero,
      Nat.sub_eq_zero_of_le h, List.drop_zero]
  | cons v vs ih =>
    intro l h
    rw [List.foldl_cons,
      ih (pushCap cap l v) (by rw [pushCap_length cap l v h]; omega),
      pushCap_eq cap l v h,
      drop_append_left _ _ _
        (by simp only [List.length_append, List.length_singleton]; omega),
      List.drop_drop]
    rw [List.append_assoc, List.singleton_append]
    congr 1
    simp only [List.length_drop, List.length_append, List.length_singleton,
      List.length_cons, List.length_nil]
    omega

theorem foldl_pushCap_length (cap : Nat) (vs : List ℚ) (l : List ℚ)
    (h : l.length ≤ cap) : (List.foldl (pushCap cap) l vs).length ≤ cap := by
  rw [foldl_pushCap cap vs l h, List.length_drop]
  simp only [List.length_append]
  omega

/-! ### Claims about the bounded history store -/

/-- **C2.** For every key and every sequence of appends via
`_update_historical_data`, the per-key amount window never exceeds 1000
samples and the per-key timestamp window never exceeds 100; appending 1500
amount samples to one key leaves exactly the 1000 most recently appended
entries, i.e. eviction is strictly oldest-first by insertion order, never by
value. -/
theorem history_window_capacity_bound (parse : String → Option ℚ)
    (data : Record) (h h2 : Hist) (vs : List ℚ) :
    (h.amounts.length ≤ 1000 → h.timestamps.length ≤ 100 →
      update_historical_data parse data h = .ok h2 →
      h2.amounts.length ≤ 1000 ∧ h2.timestamps.length ≤ 100)
    ∧ (vs.length = 1500 → List.foldl pushAmount [] vs = vs.drop 500) := by
  constructor
  · intro ha ht hup
    have hamount : (List.foldl pushAmount h.amounts (amountValues data)).length ≤ 1000 :=
      foldl_pushCap_length 1000 (amountValues data) h.amounts ha
    rw [update_historical_data] at hup
    split at hup
    · cases hup
      exact ⟨hamount, ht⟩
    · split at hup
      · cases hup
      · split at hup
        · cases hup
          exact ⟨hamount, ht⟩
        · cases hup
          refine ⟨hamount, ?_⟩
          rw [pushTimestamp, pushCap_length 100 _ _ ht]
          omega
  · intro hlen
    rw [show List.foldl pushAmount [] vs = List.foldl (pushCap 1000) [] vs from rfl,
      foldl_pushCap 1000 vs [] (by simp), List.nil_append, List.length_nil, hlen]

/-- Witness for C2 at a concrete input: one record append, and the 1500-fold
instantiated at `List.replicate 1500 0`. -/
theorem history_window_capacity_bound_witness :
    ((Hist.mk [mkRat 5 1] []).amounts.length ≤ 1000 ∧
      (Hist.mk [mkRat 5 1] []).timestamps.length ≤ 100)
    ∧ List.foldl pushAmount [] (List.replicate 1500 (0 : ℚ))
        = (List.replicate 1500 (0 : ℚ)).drop 500 := by
  have t := history_window_capacity_bound (fun _ => none) [("amount", .jint 5)]
    ⟨[], []⟩ ⟨[mkRat 5 1], []⟩ (List.replicate 1500 (0 : ℚ))
  exact ⟨t.1 (by decide) (by decide) (by decide), t.2 (by simp)⟩

/-! ### Claims about the action dispatcher -/

theorem mkRat_den_one (n : Int) : mkRat n 1 = (n : ℚ) := by
  rw [Rat.mkRat_eq_div]
  norm_num

/-- **C4.** A handler that fails on every one of the `retry_attempts = 3`
attempts makes `route_action` return (not raise) exactly one `ActionResult`
— the function is total and returns a single result by construction — with
status `"failed"` and the third (last) attempt's error as its
`error_message`. -/
theorem route_action_exhausted_retries_failed_result {ρ : Type}
    (registry : ActionType → Option (Nat → HandlerAttempt ρ)) (req : ActionRequest)
    (hnd : Nat → HandlerAttempt ρ) (e0 e1 e2 : String) (d0 d1 d2 : ℚ)
    (hreg : registry req.action_type = some hnd)
    (h0 : hnd 0 = .raises e0 d0) (h1 : hnd 1 = .raises e1 d1)
    (h2 : hnd 2 = .raises e2 d2) :
    (route_action defaultRouterConfig registry req).result.status = "failed"
    ∧ (route_action defaultRouterConfig registry req).result.error_message = some e2
    ∧ (route_action defaultRouterConfig registry req).result.response_data = none
    ∧ (route_action defaultRouterConfig registry req).attemptsMade = 3 := by
  have hexec : execute_with_retry defaultRouterConfig hnd
      = ⟨.error e2,
         qAdd (qAdd (qAdd (qAdd (qAdd 0 d0) (qMul 1 (mkRat 1 1))) d1)
           (qMul 1 (mkRat 2 1))) d2, 3⟩ := by
    rw [execute_with_retry]
    rw [show defaultRouterConfig.retry_attempts = 2 + 1 from rfl]
    rw [retryGo, h0]
    norm_num [defaultRouterConfig]
    rw [retryGo, h1]
    norm_num
    rw [retryGo, h2]
    norm_num
    rw [retryGo]
    simp [Option.getD]
  simp [route_action, hreg, hexec]

/-- Witness for C4: a concrete always-failing handler on the default
registry-shaped lookup. -/
theorem route_action_exhausted_retries_failed_result_witness :
    (route_action (ρ := String) defaultRouterConfig
        (fun _ => some (fun i => .raises ("boom " ++ toString i) 0))
        ⟨.escalate, .emptyPayload, .low, "tester"⟩).result.status = "failed"
    ∧ (route_action (ρ := String) defaultRouterConfig
        (fun _ => some (fun i => .raises ("boom " ++ toString i) 0))
        ⟨.escalate, .emptyPayload, .low, "tester"⟩).result.error_message = some "boom 2"
    ∧ (route_action (ρ := String) defaultRouterConfig
        (fun _ => some (fun i => .raises ("boom " ++ toString i) 0))
        ⟨.escalate, .emptyPayload, .low, "tester"⟩).result.response_data = none
    ∧ (route_action (ρ := String) defaultRouterConfig
        (fun _ => some (fun i => .raises ("boom " ++ toString i) 0))
        ⟨.escalate, .emptyPayload, .low, "tester"⟩).attemptsMade = 3 := by
  have t := route_action_exhausted_retries_failed_result (ρ := String)
    (fun _ => some (fun i => .raises ("boom " ++ toString i) 0))
    ⟨.escalate, .emptyPayload, .low, "tester"⟩
    (fun i => .raises ("boom " ++ toString i) 0)
    "boom 0" "boom 1" "boom 2" 0 0 0 rfl (by decide) (by decide) (by decide)
  exact t

/-- **C8.** A handler failing on attempts 1 and 2 and succeeding on attempt 3
(with `retry_attempts = 3`) yields a single `"success"` result carrying the
third attempt's response, whose `execution_time_ms` spans all three attempt
durations plus the two linear-backoff waits (`retry_delay × 1` and
`retry_delay × 2`), in milliseconds. -/
theorem route_action_success_after_retries_accumulates_time {ρ : Type}
    (registry : ActionType → Option (Nat → HandlerAttempt ρ)) (req : ActionRequest)
    (hnd : Nat → HandlerAttempt ρ) (e0 e1 : String) (resp : ρ) (d0 d1 d2 : ℚ)
    (hreg : registry req.action_type = some hnd)
    (h0 : hnd 0 = .raises e0 d0) (h1 : hnd 1 = .raises e1 d1)
    (h2 : hnd 2 = .ok resp d2) :
    (route_action defaultRouterConfig registry req).result.status = "success"
    ∧ (route_action defaultRouterConfig registry req).result.response_data = some resp
    ∧ (route_action defaultRouterConfig registry req).result.execution_time_ms
        = (d0 + defaultRouterConfig.retry_delay * 1 + d1
            + defaultRouterConfig.retry_delay * 2 + d2) * 1000
    ∧ (route_action defaultRouterConfig registry req).attemptsMade = 3 := by
  have hexec : execute_with_retry defaultRouterConfig hnd
      = ⟨.ok resp,
         qAdd (qAdd (qAdd (qAdd (qAdd 0 d0) (qMul 1 (mkRat 1 1))) d1)
           (qMul 1 (mkRat 2 1))) d2, 3⟩ := by
    rw [execute_with_retry]
    rw [show defaultRouterConfig.retry_attempts = 2 + 1 from rfl]
    rw [retryGo, h0]
    norm_num [defaultRouterConfig]
    rw [retryGo, h1]
    norm_num
    rw [retryGo, h2]
  refine ⟨?_, ?_, ?_, ?_⟩
  · simp [route_action, hreg, hexec]
  · simp [route_action, hreg, hexec]
  · simp only [route_action, hreg, hexec]
    simp only [qAdd_eq, qMul_eq, mkRat_den_one, defaultRouterConfig]
    push_cast
    ring
  · simp [route_action, hreg, hexec]

/-- Witness for C8: a concrete handler failing twice (1s each) then
succeeding (4s); the two backoff waits are 1s and 2s, so the result spans
9 seconds = 9000 ms. -/
theorem route_action_success_after_retries_accumulates_time_witness :
    (route_action (ρ := String) defaultRouterConfig
        (fun _ => some (fun i => if i = 0 then .raises "first failure" 1
          else if i = 1 then .raises "second failure" 1 else .ok "done" 4))
        ⟨.flag_anomaly, .emptyPayload, .high, "tester"⟩).result.status = "success"
    ∧ (route_action (ρ := String) defaultRouterConfig
        (fun _ => some (fun i => if i = 0 then .raises "first failure" 1
          else if i = 1 then .raises "second failure" 1 else .ok "done" 4))
        ⟨.flag_anomaly, .emptyPayload, .high, "tester"⟩).result.response_data = some "done"
    ∧ (route_action (ρ := String) defaultRouterConfig
        (fun _ => some (fun i => if i = 0 then .raises "first failure" 1
          else if i = 1 then .raises "second failure" 1 else .ok "done" 4))
        ⟨.flag_anomaly, .emptyPayload, .high, "tester"⟩).result.execution_time_ms
        = (1 + defaultRouterConfig.retry_delay * 1 + 1
            + defaultRouterConfig.retry_delay * 2 + 4) * 1000
    ∧ (route_action (ρ := String) defaultRouterConfig
        (fun _ => some (fun i => if i = 0 then .raises "first failure" 1
          else if i = 1 then .raises "second failure" 1 else .ok "done" 4))
        ⟨.flag_anomaly, .emptyPayload, .high, "tester"⟩).attemptsMade = 3 :=
  route_action_success_after_retries_accumulates_time (ρ := String)
    (fun _ => some (fun i => if i = 0 then .raises "first failure" 1
      else if i = 1 then .raises "second failure" 1 else .ok "done" 4))
    ⟨.flag_anomaly, .emptyPayload, .high, "tester"⟩
    (fun i => if i = 0 then .raises "first failure" 1
      else if i = 1 then .raises "second failure" 1 else .ok "done" 4)
    "first failure" "second failure" "done" 1 1 4 rfl (by decide) (by decide) (by decide)

/-- **C10.** When the registry holds no handler for the request's
`action_type` (the constructor populates all six types, but `route_action`
reads `self.action_handlers` dynamically, so the theorem quantifies over the
registry state), `route_action` returns a single `"failed"` result
immediately: zero handler attempts, zero backoff wait, an error message
surfaced in the result. -/
theorem route_action_unknown_type_fails_fast {ρ : Type}
    (registry : ActionType → Option (Nat → HandlerAttempt ρ)) (req : ActionRequest)
    (hreg : registry req.action_type = none) :
    (route_action defaultRouterConfig registry req).result.status = "failed"
    ∧ (route_action defaultRouterConfig registry req).result.error_message
        = some (noHandlerMsg req.action_type)
    ∧ (route_action defaultRouterConfig registry req).attemptsMade = 0
    ∧ (route_action defaultRouterConfig registry req).elapsed = 0
    ∧ (route_action defaultRouterConfig registry req).result.execution_time_ms = 0 := by
  simp [route_action, hreg]

/-- Witness for C10 at a registry state missing one entry. -/
theorem route_action_unknown_type_fails_fast_witness :
    (route_action (ρ := String) defaultRouterConfig
        (fun t => if t = ActionType.compliance_alert then none
          else some (fun _ => .ok "handled" 0))
        ⟨.compliance_alert, .emptyPayload, .low, "tester"⟩).result.status = "failed"
    ∧ (route_action (ρ := String) defaultRouterConfig
        (fun t => if t = ActionType.compliance_alert then none
          else some (fun _ => .ok "handled" 0))
        ⟨.compliance_alert, .emptyPayload, .low, "tester"⟩).result.error_message
        = some (noHandlerMsg ActionType.compliance_alert)
    ∧ (route_action (ρ := String) defaultRouterConfig
        (fun t => if t = ActionType.compliance_alert then none
          else some (fun _ => .ok "handled" 0))
        ⟨.compliance_alert, .emptyPayload, .low, "tester"⟩).attemptsMade = 0
    ∧ (route_action (ρ := String) defaultRouterConfig
        (fun t => if t = ActionType.compliance_alert then none
          else some (fun _ => .ok "handled" 0))
        ⟨.compliance_alert, .emptyPayload, .low, "tester"⟩).elapsed = 0
    ∧ (route_action (ρ := String) defaultRouterConfig
        (fun t => if t = ActionType.compliance_alert then none
          else some (fun _ => .ok "handled" 0))
        ⟨.compliance_alert, .emptyPayload, .low, "tester"⟩).result.execution_time_ms = 0 :=
  route_action_unknown_type_fails_fast (ρ := String)
    (fun t => if t = ActionType.compliance_alert then none
      else some (fun _ => .ok "handled" 0))
    ⟨.compliance_alert, .emptyPayload, .low, "tester"⟩ rfl

/-! ### Claims about the anomaly scorer -/

theorem anomaly_threshold_val : anomaly_threshold = (4/5 : ℚ) := by
  rw [anomaly_threshold, Rat.mkRat_eq_div]
  norm_num

theorem mkRat_half : mkRat 1 2 = (1/2 : ℚ) := by
  rw [Rat.mkRat_eq_div]
  norm_num

theorem half_nonneg_q : (0 : ℚ) ≤ 1/2 := by norm_num

theorem stepMax_eq (s : ℚ) (o : Option DetectorHit) (hs : 0 ≤ s) :
    stepMax s o = max s (hitScore o) := by
  cases o with
  | none => simp [stepMax, hitScore, max_eq_left hs]
  | some x => simp [stepMax, hitScore, qMax_eq]

/-- **C1.** Every report `_detect_anomalies` produces has
`score = min(max(sub-scores), 1.0)` — the maximum of the four sub-detector
scores (0 for a non-firing detector), never their sum; `is_normal` holds
exactly when the reported score is below the default threshold 0.8; and in
particular two sub-detectors each contributing 0.5 (the others contributing
at most 0.5) yield report score 0.5, not 1.0. -/
theorem detect_score_is_max_of_subscores (sq : ℚ → ℚ) (parse : String → Option ℚ)
    (data : Record) (h : Hist) (r : AnomalyReport) (p : Option DetectorHit)
    (hok : detect_anomalies sq parse data h = .ok r)
    (hp : check_pattern_anomaly parse data h = .ok p) :
    r.anomaly_score
      = min (max 0 (max (max (max (hitScore (check_amount_anomaly sq data h))
          (hitScore p)) (hitScore (check_data_quality data)))
          (hitScore (check_type_anomalies data)))) 1
    ∧ (r.is_normal = true ↔ r.anomaly_score < 4/5)
    ∧ (hitScore p = 1/2 → hitScore (check_data_quality data) = 1/2 →
        hitScore (check_amount_anomaly sq data h) ≤ 1/2 →
        hitScore (check_type_anomalies data) ≤ 1/2 →
        r.anomaly_score = 1/2) := by
  simp only [detect_anomalies, hp, Except.ok.injEq] at hok
  subst hok
  set A := check_amount_anomaly sq data h with hAdef
  set Q := check_data_quality data with hQdef
  set T := check_type_anomalies data with hTdef
  have e1 : stepMax 0 A = max 0 (hitScore A) := stepMax_eq _ _ le_rfl
  have n1 : (0 : ℚ) ≤ stepMax 0 A := by
    rw [e1]; exact le_max_left _ _
  have e2 : stepMax (stepMax 0 A) p = max (stepMax 0 A) (hitScore p) :=
    stepMax_eq _ _ n1
  have n2 : (0 : ℚ) ≤ stepMax (stepMax 0 A) p := by
    rw [e2]; exact le_trans n1 (le_max_left _ _)
  have e3 : stepMax (stepMax (stepMax 0 A) p) Q
      = max (stepMax (stepMax 0 A) p) (hitScore Q) := stepMax_eq _ _ n2
  have n3 : (0 : ℚ) ≤ stepMax (stepMax (stepMax 0 A) p) Q := by
    rw [e3]; exact le_trans n2 (le_max_left _ _)
  have e4 : stepMax (stepMax (stepMax (stepMax 0 A) p) Q) T
      = max (stepMax (stepMax (stepMax 0 A) p) Q) (hitScore T) := stepMax_eq _ _ n3
  have hS : stepMax (stepMax (stepMax (stepMax 0 A) p) Q) T
      = max 0 (max (max (max (hitScore A) (hitScore p)) (hitScore Q)) (hitScore T)) := by
    rw [e4, e3, e2, e1]
    simp only [max_assoc]
  have hScoreEq : (AnomalyReport.mk
      (decide (stepMax (stepMax (stepMax (stepMax 0 A) p) Q) T < anomaly_threshold))
      (hitTags A ++ hitTags p ++ hitTags Q ++ hitTags T)
      (qMin (stepMax (stepMax (stepMax (stepMax 0 A) p) Q) T) 1)).anomaly_score
      = min (max 0 (max (max (max (hitScore A) (hitScore p)) (hitScore Q)) (hitScore T))) 1 := by
    show qMin _ 1 = _
    rw [qMin_eq, hS]
  refine ⟨hScoreEq, ?_, ?_⟩
  · show decide (stepMax (stepMax (stepMax (stepMax 0 A) p) Q) T < anomaly_threshold) = true
      ↔ qMin (stepMax (stepMax (stepMax (stepMax 0 A) p) Q) T) 1 < 4/5
    rw [decide_eq_true_iff, qMin_eq, anomaly_threshold_val]
    constructor
    · intro hlt
      exact lt_of_le_of_lt (min_le_left _ _) hlt
    · intro hlt
      rcases min_lt_iff.mp hlt with h1 | h1
      · exact h1
      · exact absurd h1 (by norm_num)
  · intro hp5 hq5 ha5 ht5
    rw [hScoreEq, hp5, hq5, max_eq_right ha5, max_self, max_eq_left ht5,
      max_eq_right (by norm_num : (0 : ℚ) ≤ 1/2),
      min_eq_left (by norm_num : (1/2 : ℚ) ≤ 1)]

/-- Witness for C1: a record with two of four fields null (data-quality
sub-score 0.5) and a malformed timestamp string (rate sub-score 0.5); the
report score is 0.5, not 1.0, and the report counts as normal. -/
theorem detect_score_is_max_of_subscores_witness :
    (AnomalyReport.mk true ["invalid_timestamp_format", "excessive_null_values"]
        (mkRat 1 2)).anomaly_score = 1/2
    ∧ ((AnomalyReport.mk true ["invalid_timestamp_format", "excessive_null_values"]
        (mkRat 1 2)).is_normal = true
      ↔ (AnomalyReport.mk true ["invalid_timestamp_format", "excessive_null_values"]
        (mkRat 1 2)).anomaly_score < 4/5) := by
  have t := detect_score_is_max_of_subscores (fun _ => 0) (fun _ => none)
    [("a", JValue.jnull), ("b", JValue.jnull), ("timestamp", JValue.jstr "notadate"),
      ("x", JValue.jstr "hello")]
    ⟨[], []⟩
    ⟨true, ["invalid_timestamp_format", "excessive_null_values"], mkRat 1 2⟩
    (some ⟨["invalid_timestamp_format"], mkRat 1 2⟩)
    (by decide) (by decide)
  refine ⟨t.2.2 ?_ ?_ ?_ ?_, t.2.1⟩
  · simp [hitScore, mkRat_half]
  · have hq : check_data_quality
        [("a", JValue.jnull), ("b", JValue.jnull), ("timestamp", JValue.jstr "notadate"),
          ("x", JValue.jstr "hello")]
        = some ⟨["excessive_null_values"], mkRat 1 2⟩ := by decide
    rw [hq]
    simp [hitScore, mkRat_half]
  · have ha : check_amount_anomaly (fun _ => 0)
        [("a", JValue.jnull), ("b", JValue.jnull), ("timestamp", JValue.jstr "notadate"),
          ("x", JValue.jstr "hello")]
        ⟨[], []⟩ = none := by decide
    rw [ha]
    simp [hitScore, half_nonneg_q]
  · have ht : check_type_anomalies
        [("a", JValue.jnull), ("b", JValue.jnull), ("timestamp", JValue.jstr "notadate"),
          ("x", JValue.jstr "hello")] = none := by decide
    rw [ht]
    simp [hitScore, half_nonneg_q]

theorem checkAmountGo_none (sq : ℚ → ℚ) (data : Record) (hist : List ℚ)
    (hlt : hist.length < min_samples) :
    ∀ fields, checkAmountGo sq data hist fields = none := by
  intro fields
  induction fields with
  | nil => rfl
  | cons f rest ih =>
    rw [checkAmountGo]
    cases hf : (lookupRec data f).bind toNum with
    | none => simpa using ih
    | some a => simp [Nat.not_le.mpr hlt, ih]

theorem injectionTags_mem (l : List (String × JValue)) :
    ∀ t ∈ injectionTags l,
      t = "potential_sql_injection" ∨ t = "potential_script_injection" := by
  induction l with
  | nil => simp [injectionTags]
  | cons kv rest ih =>
    intro t ht
    rcases kv with ⟨k, v⟩
    cases v with
    | jstr s =>
      simp only [injectionTags, List.mem_append] at ht
      rcases ht with (h1 | h2) | h3
      · split at h1 <;> simp_all
      · split at h2 <;> simp_all
      · exact ih t h3
    | jnull => exact ih t ht
    | jbool b => exact ih t ht
    | jint n => exact ih t ht
    | jfloat q => exact ih t ht
    | jcomposite tag => exact ih t ht

theorem quality_hit_tags (data : Record) (hit : DetectorHit)
    (hck : check_data_quality data = some hit) :
    ∀ t ∈ hit.anomalies,
      t = "excessive_null_values" ∨ t = "potential_sql_injection"
        ∨ t = "potential_script_injection" := by
  intro t ht
  have hmem : t ∈ ["excessive_null_values"] ++ injectionTags data
      ∨ t ∈ injectionTags data := by
    simp only [check_data_quality] at hck
    split at hck
    all_goals try split at hck
    all_goals try exact Option.noConfusion hck
    all_goals try injection hck with hck
    all_goals try subst hck
    all_goals first
      | exact Or.inr ht
      | exact Or.inl ht
  rcases hmem with hm | hm
  · rcases List.mem_append.mp hm with h1 | h2
    · simp only [List.mem_singleton] at h1
      exact Or.inl h1
    · rcases injectionTags_mem data t h2 with h | h
      · exact Or.inr (Or.inl h)
      · exact Or.inr (Or.inr h)
  · rcases injectionTags_mem data t hm with h | h
    · exact Or.inr (Or.inl h)
    · exact Or.inr (Or.inr h)

theorem pattern_hit_tags (parse : String → Option ℚ) (data : Record) (h : Hist)
    (hit : DetectorHit)
    (hck : check_pattern_anomaly parse data h = .ok (some hit)) :
    hit.anomalies = ["invalid_timestamp_format"]
      ∨ hit.anomalies = ["rapid_succession_events"] := by
  rw [check_pattern_anomaly] at hck
  rcases hl : lookupRec data "timestamp" with _ | v
  · simp [hl] at hck
  · simp only [hl] at hck
    rcases hrz : pyReplaceZ v with e | s
    · simp [hrz] at hck
    · simp only [hrz] at hck
      rcases hps : parse s with _ | tval
      · simp only [hps, Except.ok.injEq, Option.some.injEq] at hck
        rw [← hck]
        exact Or.inl rfl
      · simp only [hps] at hck
        split at hck
        · simp only [Except.ok.injEq, Option.some.injEq] at hck
          rw [← hck]
          exact Or.inr rfl
        · simp at hck

theorem type_hit_tags (data : Record) (hit : DetectorHit)
    (hck : check_type_anomalies data = some hit) :
    ∀ t ∈ hit.anomalies, ∃ ft ∈ expected_types, t = "unexpected_type_" ++ ft.1 := by
  intro t ht
  simp only [check_type_anomalies] at hck
  split at hck
  · cases hck
  · simp only [Option.some.injEq] at hck
    rw [← hck] at ht
    rcases List.mem_filterMap.mp ht with ⟨ft, hft, hg⟩
    refine ⟨ft, hft, ?_⟩
    rcases hl : lookupRec data ft.1 with _ | v
    · simp [hl] at hg
    · simp only [hl] at hg
      split at hg
      · cases hg
      · rw [Option.some.injEq] at hg
        exact hg.symm

/-- **C3.** When the amount history for the key holds fewer than
`min_samples = 10` samples, `_check_amount_anomaly` returns no anomaly
whatever the record's amounts, and the report `_detect_anomalies` produces
contains no `unusual_<field>_amount` tag. -/
theorem amount_anomaly_needs_min_samples (sq : ℚ → ℚ) (parse : String → Option ℚ)
    (data : Record) (h : Hist) (hlen : h.amounts.length < min_samples) :
    check_amount_anomaly sq data h = none
    ∧ ∀ r, detect_anomalies sq parse data h = .ok r →
        ∀ t ∈ r.anomalies, t ∉ unusualAmountTags := by
  have hnone : check_amount_anomaly sq data h = none :=
    checkAmountGo_none sq data h.amounts hlen amountFields
  refine ⟨hnone, ?_⟩
  intro r hok t ht
  rcases hpat : check_pattern_anomaly parse data h with e | p
  · rw [detect_anomalies, hpat] at hok
    cases hok
  · simp only [detect_anomalies, hpat, Except.ok.injEq] at hok
    rw [← hok] at ht
    simp only [hnone, hitTags, List.mem_append, List.not_mem_nil, false_or] at ht
    rcases ht with (hp | hq) | htp
    · rcases pp : p with _ | phit
      · rw [pp] at hp
        simp [hitTags] at hp
      · rw [pp] at hp hpat
        simp only [hitTags] at hp
        rcases pattern_hit_tags parse data h phit hpat with he | he <;>
            rw [he] at hp <;> simp at hp <;> rw [hp] <;> decide
    · rcases qq : check_data_quality data with _ | qhit
      · rw [qq] at hq
        simp [hitTags] at hq
      · rw [qq] at hq
        simp only [hitTags] at hq
        rcases quality_hit_tags data qhit qq t hq with he | he | he <;>
            rw [he] <;> decide
    · rcases tt : check_type_anomalies data with _ | thit
      · rw [tt] at htp
        simp [hitTags] at htp
      · rw [tt] at htp
        simp only [hitTags] at htp
        rcases type_hit_tags data thit tt t htp with ⟨ft, hft, hform⟩
        simp only [expected_types, List.mem_cons, List.not_mem_nil, or_false] at hft
        rcases hft with hf | hf | hf | hf | hf | hf | hf <;>
            rw [hform, hf] <;> decide

/-- Witness for C3: amount 10,000,000 against only 3 prior samples yields no
amount anomaly and a report without any `unusual_*_amount` tag. -/
theorem amount_anomaly_needs_min_samples_witness :
    check_amount_anomaly (fun _ => 0) [("amount", JValue.jfloat (mkRat 10000000 1))]
        ⟨[1, 2, 3], []⟩ = none
    ∧ ∀ t ∈ (AnomalyReport.mk true [] 0).anomalies, t ∉ unusualAmountTags := by
  have t := amount_anomaly_needs_min_samples (fun _ => 0) (fun _ => none)
    [("amount", JValue.jfloat (mkRat 10000000 1))] ⟨[1, 2, 3], []⟩ (by decide)
  exact ⟨t.1, t.2 ⟨true, [], 0⟩ (by decide)⟩

/-- Any report `_detect_anomalies` returns satisfies
`is_normal ↔ reported score < threshold` (the source computes `is_normal`
from the uncapped running score, but the two agree because the threshold is
below the cap). -/
theorem detect_is_normal_iff (sq : ℚ → ℚ) (parse : String → Option ℚ)
    (data : Record) (h : Hist) (r : AnomalyReport)
    (hok : detect_anomalies sq parse data h = .ok r) :
    (r.is_normal = true ↔ r.anomaly_score < anomaly_threshold) := by
  rcases hpat : check_pattern_anomaly parse data h with e | p
  · rw [detect_anomalies, hpat] at hok
    cases hok
  · simp only [detect_anomalies, hpat, Except.ok.injEq] at hok
    rw [← hok]
    simp only [qMin_eq, decide_eq_true_iff]
    constructor
    · intro hlt
      exact lt_of_le_of_lt (min_le_left _ _) hlt
    · intro hlt
      rcases min_lt_iff.mp hlt with h1 | h1
      · exact h1
      · exact absurd h1 (by rw [anomaly_threshold_val]; norm_num)

/-- **C7.** For every combined result whose report is not normal (score at or
above the 0.8 threshold), `_generate_actions` emits exactly one generic
`FLAG_ANOMALY` request, with priority `HIGH` when the score strictly exceeds
0.8 and `MEDIUM` otherwise — so a report scoring exactly 0.8 still yields the
request (through the `not result.is_valid` disjunct, since the combined
validity conjoins `is_normal`). -/
theorem generate_actions_emits_flag_on_abnormal_score (sq : ℚ → ℚ)
    (parse : String → Option ℚ) (v : JSONValidationResult) (data : Record)
    (h : Hist) (r : AnomalyReport) (st : String)
    (hok : detect_anomalies sq parse data h = .ok r)
    (hscore : anomaly_threshold ≤ r.anomaly_score) :
    ((generate_actions (combineResult v r) data st).filter
        (fun a => decide (a.action_type = ActionType.flag_anomaly))).map
        (fun a => a.priority)
      = [if anomaly_threshold < r.anomaly_score then UrgencyLevel.high
          else UrgencyLevel.medium] := by
  have hiff := detect_is_normal_iff sq parse data h r hok
  have hnorm : r.is_normal = false := by
    rcases Bool.eq_false_or_eq_true r.is_normal with hb | hb
    · exact absurd (hiff.mp hb) (not_lt.mpr hscore)
    · exact hb
  have hvalid : (combineResult v r).is_valid = false := by
    simp [combineResult, hnorm]
  simp only [generate_actions]
  rw [if_pos (Or.inl hvalid)]
  split
  · simp [combineResult, List.filter_append]
  · simp [combineResult]

/-- Witness for C7: a report scoring exactly 0.8 (four of five fields null)
still yields one `FLAG_ANOMALY` request, with `MEDIUM` priority. -/
theorem generate_actions_emits_flag_on_abnormal_score_witness :
    ((generate_actions
        (combineResult ⟨true, [], [], 0, [], []⟩
          ⟨false, ["excessive_null_values"], mkRat 4 5⟩)
        [("a", JValue.jnull), ("b", JValue.jnull), ("c", JValue.jnull),
          ("d", JValue.jnull), ("e", JValue.jstr "x")] "webhook").filter
        (fun a => decide (a.action_type = ActionType.flag_anomaly))).map
        (fun a => a.priority)
      = [UrgencyLevel.medium] := by
  have t := generate_actions_emits_flag_on_abnormal_score (fun _ => 0) (fun _ => none)
    ⟨true, [], [], 0, [], []⟩
    [("a", JValue.jnull), ("b", JValue.jnull), ("c", JValue.jnull),
      ("d", JValue.jnull), ("e", JValue.jstr "x")]
    ⟨[], []⟩ ⟨false, ["excessive_null_values"], mkRat 4 5⟩ "webhook"
    (by decide) (by decide)
  rw [t]
  decide

/-! ### Claims about the pipeline and the action policy -/

theorem update_historical_data_amounts (parse : String → Option ℚ)
    (data : Record) (h h2 : Hist)
    (hup : update_historical_data parse data h = .ok h2) :
    h2.amounts = List.foldl pushAmount h.amounts (amountValues data) := by
  rw [update_historical_data] at hup
  split at hup
  · cases hup
    rfl
  · split at hup
    · cases hup
    · split at hup
      · cases hup
        rfl
      · cases hup
        rfl

/-- **C9.** Whenever `process_json` completes on a parsed record, the new
per-key amount history is the old history with every numeric amount field of
the record appended (and trimmed) — an expression that does not depend on the
anomaly report or the validation verdict, so flagged records feed the
baseline exactly like normal ones. -/
theorem process_json_appends_amounts_unconditionally (sq : ℚ → ℚ)
    (parse : String → Option ℚ) (lib : String → Record → JsOutcome)
    (data : Record) (st : String) (h : Hist) (out : ProcessOut)
    (hok : process_json sq parse lib data st h = .ok out) :
    out.hist.amounts = List.foldl pushAmount h.amounts (amountValues data) := by
  rw [process_json] at hok
  split at hok
  · cases hok
  · split at hok
    · cases hok
    · rename_i a ha h2 hup
      cases hok
      exact update_historical_data_amounts parse data h h2 hup

/-- Witness for C9: a record that *is* flagged (SQL-injection tag, score 0.9,
`is_valid = false`) still has its amount 999 appended to the history. -/
theorem process_json_appends_amounts_unconditionally_witness :
    (ProcessOut.mk
        ⟨false, [], ["potential_sql_injection"], mkRat 9 10, [], []⟩
        [⟨.flag_anomaly,
          .anomalyPayload "json_validation_anomaly" "webhook" (mkRat 9 10) []
            ["potential_sql_injection"] [] []
            [("amount", JValue.jint 999), ("note", JValue.jstr "x select 1")],
          .high, "json_agent"⟩,
         ⟨.risk_alert,
          .riskPayload "data_security" (mkRat 9 10) ["potential_sql_injection"]
            (.jstr "unknown") "webhook",
          .critical, "json_agent"⟩]
        ⟨[mkRat 999 1], []⟩).hist.amounts
      = List.foldl pushAmount (Hist.mk [] []).amounts
          (amountValues [("amount", JValue.jint 999), ("note", JValue.jstr "x select 1")]) :=
  process_json_appends_amounts_unconditionally (fun _ => 0) (fun _ => none)
    (fun _ _ => JsOutcome.valid)
    [("amount", JValue.jint 999), ("note", JValue.jstr "x select 1")] "webhook"
    ⟨[], []⟩ _ (by decide)

/-- **C5 is false as stated**: the amount sub-detector emits
`unusual_amount_amount` (the `unusual_<field>_amount` scheme), and
`_generate_actions` tests exact list membership against the literal
`"unusual_amount"`, which is never emitted — so a result carrying an
unusual-amount tag as actually emitted produces *no* `RISK_ALERT` request.
Concretely: amount 18 against ten samples `±3` (mean 0, std 3) fires the
amount detector with tag `unusual_amount_amount` and score 1, yet the
generated actions contain no risk alert. -/
theorem risk_alert_misses_emitted_unusual_amount_tag :
    check_amount_anomaly (fun q => if q = 9 then 3 else 0)
        [("amount", JValue.jint 18)] ⟨[-3, 3, -3, 3, -3, 3, -3, 3, -3, 3], []⟩
      = some ⟨["unusual_amount_amount"], 1⟩
    ∧ detect_anomalies (fun q => if q = 9 then 3 else 0) (fun _ => none)
        [("amount", JValue.jint 18)] ⟨[-3, 3, -3, 3, -3, 3, -3, 3, -3, 3], []⟩
      = .ok ⟨false, ["unusual_amount_amount"], 1⟩
    ∧ ((generate_actions
        (combineResult ⟨true, [], [], 0, [], []⟩ ⟨false, ["unusual_amount_amount"], 1⟩)
        [("amount", JValue.jint 18)] "transaction").all
        (fun a => decide (a.action_type ≠ ActionType.risk_alert))) = true :=
  ⟨by decide, by decide, by decide⟩

/-- **C5 amended.** `_generate_actions` emits exactly one `CRITICAL`
`RISK_ALERT` request iff the result's anomaly list contains one of the four
literal strings of `high_risk_anomalies` (the injection tags,
`rapid_succession_events`, or the literal `"unusual_amount"`); the
`unusual_<field>_amount` tags the amount sub-detector actually emits are not
in that set, so amount anomalies never trigger the alert. -/
theorem risk_alert_fires_only_on_literal_high_risk_tags
    (result : JSONValidationResult) (data : Record) (st : String) :
    ((generate_actions result data st).filter
        (fun a => decide (a.action_type = ActionType.risk_alert))).map
        (fun a => a.priority)
      = (if high_risk_anomalies.any (fun tag => result.anomalies.contains tag)
          then [UrgencyLevel.critical] else [])
    ∧ unusualAmountTags.all (fun tag => !high_risk_anomalies.contains tag) = true := by
  constructor
  · simp only [generate_actions]
    split
    · split <;> simp [List.filter_append]
    · split <;> simp
  · decide

/-- **C6 is false as stated**: a `timestamp` field holding a non-string value
(e.g. the integer 5) makes `_check_pattern_anomaly` raise `AttributeError`
from `.replace` — which the `except (ValueError, TypeError)` clause does not
catch — so the sub-detector throws and the whole scoring pass aborts instead
of producing the `invalid_timestamp_format` report. -/
theorem pattern_check_raises_on_non_string_timestamp :
    check_pattern_anomaly (fun _ => none) [("timestamp", JValue.jint 5)] ⟨[], []⟩
      = .error .attributeError
    ∧ detect_anomalies (fun _ => 0) (fun _ => none)
        [("timestamp", JValue.jint 5)] ⟨[], []⟩ = .error .attributeError :=
  ⟨by decide, by decide⟩

/-- **C6 amended.** For records whose `timestamp` field holds a *string* that
does not parse as a timestamp, `_check_pattern_anomaly` returns the fixed tag
`invalid_timestamp_format` with fixed sub-score 0.5 instead of throwing, and
the scoring pass completes with a report carrying that tag; for non-string
timestamp values the sub-detector instead raises an uncaught
`AttributeError` (see the counterexample). -/
theorem pattern_check_flags_malformed_string_timestamp (sq : ℚ → ℚ)
    (parse : String → Option ℚ) (data : Record) (h : Hist) (s : String)
    (hts : lookupRec data "timestamp" = some (JValue.jstr s))
    (hbad : parse (replaceZ s) = none) :
    check_pattern_anomaly parse data h
      = .ok (some ⟨["invalid_timestamp_format"], mkRat 1 2⟩)
    ∧ (∀ r, detect_anomalies sq parse data h = .ok r →
        "invalid_timestamp_format" ∈ r.anomalies)
    ∧ (∃ r, detect_anomalies sq parse data h = .ok r) := by
  have hpat : check_pattern_anomaly parse data h
      = .ok (some ⟨["invalid_timestamp_format"], mkRat 1 2⟩) := by
    rw [check_pattern_anomaly, hts]
    simp [pyReplaceZ, hbad]
  refine ⟨hpat, ?_, ?_⟩
  · intro r hok
    simp only [detect_anomalies, hpat, Except.ok.injEq] at hok
    rw [← hok]
    show "invalid_timestamp_format" ∈
      hitTags (check_amount_anomaly sq data h)
        ++ hitTags (some ⟨["invalid_timestamp_format"], mkRat 1 2⟩)
        ++ hitTags (check_data_quality data)
        ++ hitTags (check_type_anomalies data)
    refine List.mem_append.mpr (Or.inl ?_)
    refine List.mem_append.mpr (Or.inl ?_)
    refine List.mem_append.mpr (Or.inr ?_)
    simp [hitTags]
  · simp only [detect_anomalies, hpat]
    exact ⟨_, rfl⟩

/-- Witness for the amended C6 at the malformed string `"notadate"`. -/
theorem pattern_check_flags_malformed_string_timestamp_witness :
    check_pattern_anomaly (fun _ => none) [("timestamp", JValue.jstr "notadate")]
        ⟨[], []⟩ = .ok (some ⟨["invalid_timestamp_format"], mkRat 1 2⟩)
    ∧ "invalid_timestamp_format" ∈
        (AnomalyReport.mk true ["invalid_timestamp_format"] (mkRat 1 2)).anomalies := by
  have t := pattern_check_flags_malformed_string_timestamp (fun _ => 0) (fun _ => none)
    [("timestamp", JValue.jstr "notadate")] ⟨[], []⟩ "notadate" (by decide) rfl
  exact ⟨t.1, t.2.1 ⟨true, ["invalid_timestamp_format"], mkRat 1 2⟩ (by decide)⟩
